/-
Verification of the batch-job / render pipeline of the dad-social-media-agent
repository, as a shallow embedding in Lean 4.

Embedded components and their sources:
* JobStore operations (`create_batch_job`, `update_batch_job_status`)
  from backend/app/services/bank_service.py and the `BatchJob` ORM model
  from backend/app/database/models.py.
* The batch render worker loop (`process_batch_render_job`)
  from scripts/process_render_queue.py.
* The render orchestration (`render_video_from_bank_item`)
  from backend/app/services/render_from_bank_service.py.
* The render-status polling loop inside `auto_render_post_preview`
  from backend/app/services/weekly_schedule_service.py.
* The near-duplicate filter (`_calculate_text_similarity`, `_is_near_duplicate`)
  from backend/app/services/batch_generation_service.py.
* The stock-video search filter (`search_videos`)
  from backend/app/services/pexels_client.py.
* The audio picker (`pick_track_for_plan`)
  from backend/app/services/audio_service.py.

Modelling conventions: SQLAlchemy sessions become an explicit list of rows
threaded through the operations; `datetime.utcnow()` becomes an explicit
`now : Nat` parameter; Python float arithmetic on progress percentages is
modelled with exact natural-number arithmetic; `random.choice` is modelled
by an explicit seed index; external HTTP collaborators (Pexels, Creatomate,
voiceover generation) become oracle parameters carrying their responses.
-/
import Mathlib

namespace DadAgent

/-! ## JobStore: the `BatchJob` table and its operations

`BatchJob` columns, from backend/app/database/models.py (class BatchJob):
`id`, `type`, `payload_json`, `status`, `progress`, `error`, `created_at`,
`completed_at`.  The `payload_json` of a `video_render` job carries
`resolved_content_ids` and `template_type`
(scripts/process_render_queue.py reads exactly those two keys). -/

/-- Payload of a batch job (the `payload_json` column), restricted to the keys
the render worker reads: `resolved_content_ids` and `template_type`. -/
structure JobPayload where
  resolved_content_ids : List Nat
  template_type : String
  deriving Repr, DecidableEq

/-- One row of the `batch_jobs` table (class `BatchJob` in
backend/app/database/models.py).  Timestamps are modelled as `Nat`. -/
structure BatchJobRow where
  id : Nat
  type : String
  payload : JobPayload
  status : String
  progress : Nat
  error : Option String
  created_at : Nat
  completed_at : Option Nat
  deriving Repr, DecidableEq

/-- The job store: the `batch_jobs` table as a list of rows. -/
abbrev JobStore := List BatchJobRow

/-- Lookup: `db.query(BatchJob).filter(BatchJob.id == job_id).first()`. -/
def getJobRow (db : JobStore) (job_id : Nat) : Option BatchJobRow :=
  db.find? (fun j => j.id == job_id)

/-- Caller-supplied fields of `create_batch_job`'s `job: BatchJobModel`
argument (bank_service.py lines 142-154): `type`, `payload_json`, `status`,
`progress`, `error` are copied into the new row; `completed_at` is never
set at creation. -/
structure BatchJobInput where
  type : String
  payload : JobPayload
  status : String
  progress : Nat
  error : Option String
  deriving Repr, DecidableEq

/-- Model of `create_batch_job(db, job)` from bank_service.py: inserts a new row with
the caller's `type`, `payload_json`, `status`, `progress`, `error`; the DB
assigns the id (modelled as one more than the table size) and
`created_at = now`; `completed_at` starts NULL. -/
def create_batch_job (db : JobStore) (job : BatchJobInput) (now : Nat) :
    JobStore × BatchJobRow :=
  let row : BatchJobRow :=
    { id := db.length + 1
      type := job.type
      payload := job.payload
      status := job.status
      progress := job.progress
      error := job.error
      created_at := now
      completed_at := none }
  (db ++ [row], row)

/-- The field assignments of `update_batch_job_status` (bank_service.py lines
161-185) applied to one row: each keyword argument overwrites its column when
it is not None, and `completed_at` is stamped exactly when the *new* status
argument is "succeeded" or "failed". -/
def applyJobUpdate (job : BatchJobRow) (status : Option String)
    (progress : Option Nat) (error : Option String) (now : Nat) : BatchJobRow :=
  let j1 := match status with
    | some s => { job with status := s }
    | none => job
  let j2 := match progress with
    | some p => { j1 with progress := p }
    | none => j1
  let j3 := match error with
    | some e => { j2 with error := some e }
    | none => j2
  match status with
  | some s => if s = "succeeded" ∨ s = "failed" then { j3 with completed_at := some now } else j3
  | none => j3

/-- Model of `update_batch_job_status(db, job_id, *, status, progress, error)` from
bank_service.py lines 161-185.  Looks the row up; `None` (absent row) is the
only rejected case; otherwise every requested field is applied and the
updated model is returned.  There is no check of the row's current status. -/
def update_batch_job_status (db : JobStore) (job_id : Nat)
    (status : Option String) (progress : Option Nat) (error : Option String)
    (now : Nat) : JobStore × Option BatchJobRow :=
  match getJobRow db job_id with
  | none => (db, none)
  | some job =>
    let j := applyJobUpdate job status progress error now
    (db.map (fun r => if r.id == job_id then j else r), some j)

/-- Terminal statuses of the job state machine. -/
def isTerminalStatus (s : String) : Bool :=
  s = "succeeded" || s = "failed"

/-! ## Content bank items and the render orchestration

`ContentBankItem` (backend/app/database/models.py) restricted to the columns
the render path reads: `id`, `status`, `title`, `script`, `content_pillar`,
`topic_cluster`, `created_at`, `primary_asset_url`, `secondary_asset_url`.
Nullable string columns are `Option String`. -/

/-- One row of the `content_bank_items` table, restricted to the columns used
by the render orchestration and the duplicate filter. -/
structure BankItemRow where
  id : Nat
  status : String
  title : String
  script : String
  content_pillar : String
  topic_cluster : Option String
  created_at : Nat
  primary_asset_url : Option String
  secondary_asset_url : Option String
  deriving Repr, DecidableEq

/-- The content bank: the `content_bank_items` table as a list of rows. -/
abbrev BankStore := List BankItemRow

/-- Model of `get_bank_item(db, item_id)`: first row with the given id. -/
def getBankItem (db : BankStore) (item_id : Nat) : Option BankItemRow :=
  db.find? (fun i => i.id == item_id)

/-- Python truthiness of an optional string: `None` and `""` are falsy. -/
def optTruthy : Option String → Bool
  | none => false
  | some s => !(s == "")

/-- External side effects of `render_video_from_bank_item` that the safety
claims talk about: generating a voiceover
(`ensure_voiceover_for_bank_item`) and submitting a render request
(`render_video(render_request)`). -/
inductive RenderEffect where
  | voiceoverGen (itemId : Nat)
  | renderSubmit (itemId : Nat)
  deriving Repr, DecidableEq

/-- Oracle responses of the external collaborators consumed by one
`render_video_from_bank_item` call: the voiceover URL returned by
`ensure_voiceover_for_bank_item` (None = generation failed), the video URLs
produced by the Pexels search inside `_select_visuals_for_bank_item`, and
the terminal render job returned by `render_video` (its `status`,
`video_url`, `error_message`). -/
structure RenderEnv where
  voiceover : Option String
  searchResults : List String
  renderStatus : String
  renderUrl : Option String
  renderErrorMessage : Option String
  deriving Repr, DecidableEq

/-- Model of `_select_visuals_for_bank_item(db, item, max_clips)` from
render_from_bank_service.py lines 25-97: reuse `primary_asset_url` (plus
`secondary_asset_url` when `max_clips > 1`) when present, else take the
first `max_clips` URLs of the (oracle-provided) search results. -/
def selectVisualsForBankItem (item : BankItemRow) (env : RenderEnv)
    (max_clips : Nat) : List String :=
  match item.primary_asset_url with
  | some purl =>
    if purl == "" then (env.searchResults.take max_clips)
    else
      let urls := [purl] ++
        (match item.secondary_asset_url with
         | some surl => if surl ≠ "" ∧ max_clips > 1 then [surl] else []
         | none => [])
      urls.take max_clips
  | none => env.searchResults.take max_clips

/-- Model of `render_video_from_bank_item(db, item_id, template_type)` from
render_from_bank_service.py lines 100-219, returning the rendered URL (or
None) together with the list of external effects performed.  The early
returns: missing item and non-approved item return None before any
voiceover generation or render submission. -/
def render_video_from_bank_item (db : BankStore) (env : RenderEnv)
    (item_id : Nat) (template_type : String) :
    Option String × List RenderEffect :=
  match getBankItem db item_id with
  | none => (none, [])
  | some item =>
    if item.status ≠ "approved" then (none, [])
    else
      -- Step 1: ensure voiceover (an external generation effect).
      match env.voiceover with
      | none => (none, [RenderEffect.voiceoverGen item_id])
      | some _ =>
        -- Step 2: select visuals.
        let max_clips := if template_type == "video" then 2 else 1
        let asset_urls := selectVisualsForBankItem item env max_clips
        if asset_urls = [] then (none, [RenderEffect.voiceoverGen item_id])
        else
          -- Steps 3-4: build the request and submit the render.
          let effs := [RenderEffect.voiceoverGen item_id,
                       RenderEffect.renderSubmit item_id]
          if env.renderStatus == "succeeded" ∧ optTruthy env.renderUrl then
            (env.renderUrl, effs)
          else
            (none, effs)

/-! ## The batch render worker (scripts/process_render_queue.py) -/

/-- Outcome of one loop iteration of `process_batch_render_job` (lines
85-114): the item counts as succeeded exactly when it exists, is approved,
and `render_video_from_bank_item` returned a truthy URL. -/
def processOneItem (bank : BankStore) (env : Nat → RenderEnv)
    (template_type : String) (item_id : Nat) : Bool :=
  match getBankItem bank item_id with
  | none => false
  | some item =>
    if item.status ≠ "approved" then false
    else optTruthy (render_video_from_bank_item bank (env item_id) item_id
      template_type).1

/-! The worker stores `progress = int(((idx + 1) / total) * 100)` after
each item (process_render_queue.py line 117).  Python evaluates this in
IEEE-754 binary64: the division is correctly rounded to the nearest double
(ties to even), the product with the exact constant 100 is correctly
rounded again, and `int()` truncates toward zero.  The functions below
model those two roundings with exact integer arithmetic.  Subnormal
underflow and overflow to infinity are not modelled: with `i ≥ 1` they
would require `total > 2^1022` items, and `total = 0` (a Python
`ZeroDivisionError`) is unreachable because the worker only enters the
loop on a non-empty item list. -/

/-- Fuel-driven floor of the base-2 logarithm (`n.bit_length() - 1` for
`n ≥ 1`); fuel `n` always suffices. -/
def log2fuel : Nat → Nat → Nat
  | 0, _ => 0
  | fuel + 1, n => if n < 2 then 0 else log2fuel fuel (n / 2) + 1

/-- Floor of the base-2 logarithm of `n` (0 for `n = 0`). -/
def nlog2 (n : Nat) : Nat := log2fuel n n

/-- Round-to-nearest, ties-to-even, of the fraction `a / b` (`b ≥ 1`). -/
def rne (a b : Nat) : Nat :=
  let n := a / b
  let r := a % b
  if 2 * r < b then n
  else if b < 2 * r then n + 1
  else n + n % 2

/-- `int(((i) / total) * 100)` as Python computes it for `i, total ≥ 1`:
the quotient `i / total` is rounded to a 53-bit mantissa `m1` and binary
exponent `eL - L - 52` (round to nearest, ties to even); the product
`m1 * 100` is rounded to 53 bits again; the result is truncated to an
integer.  Validated against CPython on every `0 ≤ i ≤ total ≤ 700` and on
random inputs up to `10^7`; e.g. `pyProgressFloat 29 100 = 28` while the
exact floor of `100 * 29 / 100` is 29. -/
def pyProgressFloat (i total : Nat) : Nat :=
  if total = 0 then 0
  else if i = 0 then 0
  else
    let L := nlog2 total + 60
    let N := i * 2 ^ L / total
    let eL := nlog2 N
    let m1 := if eL ≤ 52 + L then rne (i * 2 ^ (52 + L - eL)) total
              else rne i (total * 2 ^ (eL - L - 52))
    let e1 : Int := (eL : Int) - (L : Int) - 52
    let a := m1 * 100
    let ep := nlog2 a
    let m2 := if ep ≤ 52 then a else rne a (2 ^ (ep - 52))
    let e2 : Int := if ep ≤ 52 then e1 else e1 + ((ep : Int) - 52)
    if 0 ≤ e2 then m2 * 2 ^ e2.toNat else m2 / 2 ^ (-e2).toNat

/-- The worker's per-item loop (process_render_queue.py lines 85-118):
threads `(succeeded, failed)` counters and the job store; after each item,
regardless of outcome, stores `progress = int(((idx + 1) / total) * 100)`
computed in binary64 as `pyProgressFloat (idx + 1) total`. -/
def renderLoop (bank : BankStore) (env : Nat → RenderEnv)
    (template_type : String) (job_id total now : Nat) :
    List Nat → Nat → Nat → Nat → JobStore → Nat × Nat × JobStore
  | [], _, s, f, db => (s, f, db)
  | item_id :: rest, idx, s, f, db =>
    let ok := processOneItem bank env template_type item_id
    let s' := if ok then s + 1 else s
    let f' := if ok then f else f + 1
    let db' := (update_batch_job_status db job_id none
      (some (pyProgressFloat (idx + 1) total)) none now).1
    renderLoop bank env template_type job_id total now rest (idx + 1) s' f' db'

/-- The terminal status and error chosen by `process_batch_render_job`
(lines 120-129) from the final counters. -/
def batchOutcome (succeeded failed total : Nat) : String × Option String :=
  if failed = 0 then ("succeeded", none)
  else if succeeded = 0 then ("failed", some ("All " ++ toString total ++ " renders failed"))
  else ("succeeded", some (toString failed ++ " of " ++ toString total ++ " renders failed"))

/-- Model of `process_batch_render_job(db, job_id)` from process_render_queue.py
lines 44-152 (exception-free paths): guards on existence, type and
non-terminal status, marks the job running, iterates the items, and writes
the terminal status.  Returns the final job store and the function's
boolean result. -/
def process_batch_render_job (jobs : JobStore) (bank : BankStore)
    (env : Nat → RenderEnv) (job_id now : Nat) : JobStore × Bool :=
  match getJobRow jobs job_id with
  | none => (jobs, false)
  | some job =>
    if job.type ≠ "video_render" then (jobs, false)
    else if ¬ (job.status = "pending" ∨ job.status = "running") then (jobs, false)
    else
      let db1 := (update_batch_job_status jobs job_id (some "running") (some 0)
        none now).1
      let content_ids := job.payload.resolved_content_ids
      let template_type := job.payload.template_type
      let total := content_ids.length
      if content_ids = [] then
        ((update_batch_job_status db1 job_id (some "succeeded") (some 100)
          none now).1, true)
      else
        let r := renderLoop bank env template_type job_id total now
          content_ids 0 0 0 db1
        let outcome := batchOutcome r.1 r.2.1 total
        ((update_batch_job_status r.2.2 job_id (some outcome.1) (some 100)
          outcome.2 now).1, true)

/-! ## Text utilities

Python string operations (`lower`, `split()`, `strip`, slicing, substring
containment) modelled as executable functions over the character list of a
`String`. -/

/-- Python `str.lower()` (ASCII case folding suffices for the texts involved). -/
def pyLower (l : List Char) : List Char := l.map Char.toLower

/-- Auxiliary for `str.split()`: accumulates the current word (reversed). -/
def splitWsAux : List Char → List Char → List (List Char)
  | [], acc => if acc = [] then [] else [acc.reverse]
  | c :: rest, acc =>
    if c.isWhitespace then
      if acc = [] then splitWsAux rest []
      else acc.reverse :: splitWsAux rest []
    else splitWsAux rest (c :: acc)

/-- Python `str.split()` with no argument: split on runs of whitespace, dropping
empty fragments. -/
def splitWs (l : List Char) : List (List Char) := splitWsAux l []

/-- Python slicing `s[:n]` on a `str` (by code points). -/
def pyTake (s : String) (n : Nat) : String := ⟨s.data.take n⟩

/-- Python `pat in hay` on strings: substring containment. -/
def containsSub : List Char → List Char → Bool
  | [], pat => pat.isEmpty
  | hay@(_ :: t), pat => pat.isPrefixOf hay || containsSub t pat

/-- Python `str.strip()`: drop whitespace from both ends. -/
def stripWs (l : List Char) : List Char :=
  ((l.dropWhile Char.isWhitespace).reverse.dropWhile Char.isWhitespace).reverse

/-! ## DuplicateFilter (backend/app/services/batch_generation_service.py) -/

/-- The word set of a text: `set(text.lower().split())`. -/
def wordSet (s : String) : Finset (List Char) := (splitWs (pyLower s.data)).toFinset

/-- Model of `_calculate_text_similarity(text1, text2)` from
batch_generation_service.py lines 23-38: word-set Jaccard similarity, with
0.0 when either word set (or the union) is empty. -/
def calculate_text_similarity (text1 text2 : String) : ℚ :=
  let words1 := wordSet text1
  let words2 := wordSet text2
  if words1 = ∅ ∨ words2 = ∅ then 0
  else
    let inter := words1 ∩ words2
    let union := words1 ∪ words2
    if union = ∅ then 0 else (inter.card : ℚ) / (union.card : ℚ)

/-- Model of `_is_near_duplicate(db, new_title, new_script, content_pillar,
topic_cluster, similarity_threshold, lookback_days)` from
batch_generation_service.py lines 41-98.  The DB query becomes a filter of
the bank store (same pillar, `created_at >= now - lookback_days`, same
cluster when a truthy cluster is given); the item loop returns true as soon
as the title similarity or the 200-character script-prefix similarity
strictly exceeds the threshold. -/
def is_near_duplicate (db : BankStore) (new_title new_script : String)
    (content_pillar : String) (topic_cluster : Option String)
    (similarity_threshold : ℚ) (lookback_days now : Nat) : Bool :=
  let cutoff := now - lookback_days
  let pool0 := db.filter (fun it =>
    it.content_pillar == content_pillar && decide (cutoff ≤ it.created_at))
  let pool := match topic_cluster with
    | some c => if c == "" then pool0
                else pool0.filter (fun it => it.topic_cluster == some c)
    | none => pool0
  pool.any (fun item =>
    decide (calculate_text_similarity new_title item.title > similarity_threshold)
    || decide (calculate_text_similarity (pyTake new_script 200)
         (pyTake item.script 200) > similarity_threshold))

/-! ## Stock-video search (backend/app/services/pexels_client.py) -/

/-- One entry of a Pexels video's `video_files` array. -/
structure VideoFile where
  width : Nat
  link : String
  deriving Repr, DecidableEq

/-- One candidate of the Pexels response's `videos` array, restricted to the
fields `search_videos` reads. -/
structure PexelsVideo where
  url : String
  id : Nat
  alt : Option String
  video_files : List VideoFile
  image : String
  duration : Nat
  deriving Repr, DecidableEq

/-- The returned asset record (`AssetResult` in app/models/video.py). -/
structure AssetResult where
  id : String
  thumbnail_url : String
  video_url : String
  duration_seconds : Nat
  deriving Repr, DecidableEq

/-- The deny list (`people_keywords`, pexels_client.py lines 58-64). -/
def people_keywords : List String :=
  ["person", "people", "face", "faces", "human", "woman", "man",
   "men", "women", "girl", "boy", "child", "children", "adult",
   "portrait", "headshot", "crowd", "group", "individual", "person's",
   "people's", "family", "couple", "teen", "teenager", "elderly",
   "senior", "young", "old", "baby", "infant", "toddler", "kid", "kids"]

/-- The metadata text a candidate is screened on (pexels_client.py lines
66-70): lowered page URL + `str(id).lower()` (lowercasing digits is the
identity but is applied as in the source) + lowered alt text when the alt
field is truthy. -/
def videoText (v : PexelsVideo) : List Char :=
  let altText : List Char := match v.alt with
    | some a => if a == "" then [] else pyLower a.data
    | none => []
  pyLower v.url.data ++ [' '] ++ pyLower (toString v.id).data ++ [' '] ++ altText

/-- The check `any(keyword in video_text for keyword in people_keywords)`. -/
def hasPeopleKeyword (v : PexelsVideo) : Bool :=
  people_keywords.any (fun kw => containsSub (videoText v) kw.data)

/-- Head of `video_files.sort(key=width, reverse=True)`: the first file with
maximal width (Python's sort is stable, so ties keep input order). -/
def bestVideoFile : VideoFile → List VideoFile → VideoFile
  | best, [] => best
  | best, f :: rest => bestVideoFile (if best.width < f.width then f else best) rest

/-- The asset built from an accepted candidate (pexels_client.py lines
76-98): best-quality link as both `id` and `video_url`, the `image` field
as thumbnail with the best link as fallback. -/
def buildAsset (v : PexelsVideo) : AssetResult :=
  match v.video_files with
  | [] => { id := "", thumbnail_url := "", video_url := "", duration_seconds := v.duration }
  | f :: rest =>
    let best := bestVideoFile f rest
    { id := best.link
      thumbnail_url := if v.image == "" then best.link else v.image
      video_url := best.link
      duration_seconds := v.duration }

/-- The candidate loop of `search_videos` (pexels_client.py lines 66-102):
skip people-flagged candidates and candidates without video files, append
the built asset otherwise, and stop once `max_results` assets are
collected. -/
def searchVideosLoop (max_results : Nat) :
    List PexelsVideo → List AssetResult → List AssetResult
  | [], acc => acc
  | v :: rest, acc =>
    if hasPeopleKeyword v then searchVideosLoop max_results rest acc
    else match v.video_files with
      | [] => searchVideosLoop max_results rest acc
      | _ :: _ =>
        let acc' := acc ++ [buildAsset v]
        if max_results ≤ acc'.length then acc'
        else searchVideosLoop max_results rest acc'

/-- Model of `search_videos(query, max_results)` over an oracle-provided response
body (`data["videos"]`). -/
def search_videos (videos : List PexelsVideo) (max_results : Nat) :
    List AssetResult :=
  searchVideosLoop max_results videos []

/-! ## AudioPicker (backend/app/services/audio_service.py) -/

/-- The `AudioMode` enum from app/models/audio.py. -/
inductive AudioMode where
  | AUTO_STOCK_ONLY
  | AUTO_STOCK_WITH_TIKTOK_HINTS
  | MUTED_FOR_PLATFORM_MUSIC
  deriving Repr, DecidableEq

/-- One row of the `audio_tracks` table, restricted to the columns
`pick_track_for_plan` reads. -/
structure AudioTrackRow where
  title : String
  mood : String
  length_seconds : Nat
  file_url : String
  deriving Repr, DecidableEq

/-- Normalization `(music_mood or "").strip().lower()`. -/
def normalizeMood (music_mood : Option String) : String :=
  ⟨pyLower (stripWs (music_mood.getD "").data)⟩

/-- Model of `pick_track_for_plan(music_mood, estimated_length_seconds, db)` from
audio_service.py lines 31-81.  The DB query becomes a filter of the track
list; `random.choice` becomes indexing by `seed % candidates.length`.
Muted mode returns None before any track query; an empty mood query falls
back to all tracks; length-unsuitable candidate sets fall back to the full
candidate set; an empty table yields None. -/
def pick_track_for_plan (mode : AudioMode) (music_mood : Option String)
    (estimated_length_seconds : Nat) (tracks : List AudioTrackRow)
    (seed : Nat) : Option AudioTrackRow :=
  if mode = AudioMode.MUTED_FOR_PLATFORM_MUSIC then none
  else
    let normalized_mood := normalizeMood music_mood
    let queried := if normalized_mood ≠ "" then
        tracks.filter (fun t => t.mood == normalized_mood)
      else tracks
    let tracks1 := if queried = [] ∧ normalized_mood ≠ "" then tracks else queried
    if tracks1 = [] then none
    else
      let suitable := tracks1.filter (fun t =>
        estimated_length_seconds ≤ t.length_seconds)
      let candidates := if suitable = [] then tracks1 else suitable
      candidates.get? (seed % candidates.length)

/-! ## RenderPoller (backend/app/services/weekly_schedule_service.py)

The polling loop of `auto_render_post_preview` (lines 121-148): up to
`max_attempts = 60` status checks; a check may raise (caught, polling
continues); `succeeded` with a truthy `video_url` returns the URL;
`failed`/`error` returns None immediately; anything else keeps polling;
exhausting the attempts returns None. -/

/-- One `check_render_status` response (`status`, `video_url`). -/
structure PollResp where
  status : String
  video_url : Option String
  deriving Repr, DecidableEq

/-- The polling loop: `check attempt = none` models a status-check exception
(caught, attempt consumed).  Returns the loop's result together with the
number of status checks consumed. -/
def pollAux (check : Nat → Option PollResp) : Nat → Nat → Option String × Nat
  | attempt, 0 => (none, attempt)
  | attempt, fuel + 1 =>
    match check attempt with
    | none => pollAux check (attempt + 1) fuel
    | some r =>
      if r.status == "succeeded" ∧ optTruthy r.video_url then
        (r.video_url, attempt + 1)
      else if r.status == "failed" ∨ r.status == "error" then
        (none, attempt + 1)
      else pollAux check (attempt + 1) fuel

/-- The poll phase of `auto_render_post_preview`, with the source's
`max_attempts = 60`. -/
def auto_render_poll (check : Nat → Option PollResp) : Option String × Nat :=
  pollAux check 0 60

/-! ## Reachability through the job-store operations

States of the job store reachable from the empty table through
`create_batch_job` and `update_batch_job_status`, restricted to the legal
call discipline of the spec's state machine: jobs are created in a
non-terminal status and a non-terminal status is never written over a
terminal one.  (The code itself enforces neither restriction; the
counterexamples below exercise the unrestricted operations.) -/
inductive ReachableStore : JobStore → Prop where
  | empty : ReachableStore []
  | create (db : JobStore) (job : BatchJobInput) (now : Nat) :
      ReachableStore db →
      isTerminalStatus job.status = false →
      ReachableStore (create_batch_job db job now).1
  | update (db : JobStore) (job_id : Nat) (status : Option String)
      (progress : Option Nat) (error : Option String) (now : Nat) :
      ReachableStore db →
      (∀ s, status = some s → isTerminalStatus s = false →
        ∀ job, getJobRow db job_id = some job →
          isTerminalStatus job.status = false) →
      ReachableStore (update_batch_job_status db job_id status progress
        error now).1

/-! ## Poll observations -/

/-- The `i`-th status check observes terminal success: status "succeeded"
with a truthy result URL. -/
def succObs (check : Nat → Option PollResp) (i : Nat) : Prop :=
  ∃ r, check i = some r ∧ r.status = "succeeded" ∧ optTruthy r.video_url = true

/-- The `i`-th status check observes a render-reported failure: status
"failed" or "error". -/
def abortObs (check : Nat → Option PollResp) (i : Nat) : Prop :=
  ∃ r, check i = some r ∧ (r.status = "failed" ∨ r.status = "error")

/-- The `i`-th status check observes nothing terminal: either the check
raised (None) or the response is neither a truthy success nor a
failure/error status. -/
def nonTerminalObs (check : Nat → Option PollResp) (i : Nat) : Prop :=
  ¬ succObs check i ∧ ¬ abortObs check i

/-! ## Helper lemmas about the job store -/

theorem applyJobUpdate_id (job : BatchJobRow) (st : Option String)
    (p : Option Nat) (e : Option String) (now : Nat) :
    (applyJobUpdate job st p e now).id = job.id := by
  unfold applyJobUpdate
  cases st <;> cases p <;> cases e <;> simp <;> split <;> rfl

theorem applyJobUpdate_progress_only (job : BatchJobRow) (p : Nat) (now : Nat) :
    applyJobUpdate job none (some p) none now = { job with progress := p } := rfl

theorem getJobRow_mem {db : JobStore} {job_id : Nat} {job : BatchJobRow}
    (h : getJobRow db job_id = some job) : job ∈ db :=
  List.mem_of_find?_eq_some h

theorem getJobRow_id {db : JobStore} {job_id : Nat} {job : BatchJobRow}
    (h : getJobRow db job_id = some job) : job.id = job_id := by
  have := List.find?_some h
  simpa using this

/-- Replacing the matching rows of the store leaves the updated row where the
lookup finds it. -/
theorem getJobRow_map_replace (db : JobStore) (job_id : Nat)
    (j : BatchJobRow) (hid : j.id = job_id) :
    ∀ job, getJobRow db job_id = some job →
      getJobRow (db.map fun r => if r.id == job_id then j else r) job_id = some j := by
  induction db with
  | nil => intro job h; simp [getJobRow] at h
  | cons a t ih =>
    intro job h
    by_cases ha : a.id = job_id
    · simp [getJobRow, List.find?, ha, hid]
    · have hb : (a.id == job_id) = false := by simpa using ha
      simp only [getJobRow, List.map_cons, List.find?, hb, if_false,
        Bool.false_eq_true] at h ⊢
      exact ih job h

/-- The row returned by `update_batch_job_status` is the stored row. -/
theorem update_stores_applied (db : JobStore) (job_id : Nat)
    (st : Option String) (p : Option Nat) (e : Option String) (now : Nat)
    (job : BatchJobRow) (h : getJobRow db job_id = some job) :
    (update_batch_job_status db job_id st p e now).2
        = some (applyJobUpdate job st p e now)
    ∧ getJobRow (update_batch_job_status db job_id st p e now).1 job_id
        = some (applyJobUpdate job st p e now) := by
  constructor
  · simp [update_batch_job_status, h]
  · simp only [update_batch_job_status, h]
    exact getJobRow_map_replace db job_id _
      (by rw [applyJobUpdate_id]; exact getJobRow_id h) job h

/-! ## C1: terminal jobs and `update_batch_job_status` -/

/-- C1 counterexample.  A job already in the terminal status "succeeded" is
updated to "running" with a fresh progress value: the call is not rejected
(it returns the updated model, not an error) and the stored row changes,
refuting the claim that updates to terminal jobs are rejected and leave the
row unchanged. -/
theorem update_terminal_job_counterexample :
    (update_batch_job_status
        [{ id := 1, type := "video_render",
           payload := { resolved_content_ids := [7], template_type := "video" },
           status := "succeeded", progress := 100, error := none,
           created_at := 0, completed_at := some 3 }]
        1 (some "running") (some 10) none 5)
      = ([{ id := 1, type := "video_render",
            payload := { resolved_content_ids := [7], template_type := "video" },
            status := "running", progress := 10, error := none,
            created_at := 0, completed_at := some 3 }],
         some { id := 1, type := "video_render",
                payload := { resolved_content_ids := [7], template_type := "video" },
                status := "running", progress := 10, error := none,
                created_at := 0, completed_at := some 3 })
    ∧ isTerminalStatus "succeeded" = true := by
  constructor
  · rfl
  · rfl

/-- C1 amended: `update_batch_job_status` performs no terminal-state check.
For a job found in a terminal status, a requested status/progress/error
update is applied and the updated model returned (the only rejected call is
for a missing job id, which returns None); and a progress-only update is
accepted whatever the current status is, not only while it is
"running". -/
theorem update_batch_job_status_no_terminal_guard
    (db : JobStore) (job_id : Nat) (job : BatchJobRow)
    (h : getJobRow db job_id = some job) :
    (∀ (s : String) (p : Option Nat) (e : Option String) (now : Nat),
      isTerminalStatus job.status = true →
        (update_batch_job_status db job_id (some s) p e now).2
            = some (applyJobUpdate job (some s) p e now)
        ∧ getJobRow (update_batch_job_status db job_id (some s) p e now).1 job_id
            = some (applyJobUpdate job (some s) p e now))
    ∧ (∀ (p now : Nat),
        (update_batch_job_status db job_id none (some p) none now).2
          = some { job with progress := p }) := by
  refine ⟨fun s p e now _ => update_stores_applied db job_id (some s) p e now job h, ?_⟩
  intro p now
  rw [(update_stores_applied db job_id none (some p) none now job h).1,
    applyJobUpdate_progress_only]

/-- Witness for the amended C1 theorem at a concrete terminal job. -/
theorem update_batch_job_status_no_terminal_guard_witness :
    ((update_batch_job_status
        [{ id := 1, type := "video_render",
           payload := { resolved_content_ids := [], template_type := "video" },
           status := "failed", progress := 100, error := some "boom",
           created_at := 0, completed_at := some 2 }]
        1 (some "succeeded") (some 55) none 9).2
      = some (applyJobUpdate
          { id := 1, type := "video_render",
            payload := { resolved_content_ids := [], template_type := "video" },
            status := "failed", progress := 100, error := some "boom",
            created_at := 0, completed_at := some 2 }
          (some "succeeded") (some 55) none 9))
    ∧ ((update_batch_job_status
        [{ id := 1, type := "video_render",
           payload := { resolved_content_ids := [], template_type := "video" },
           status := "failed", progress := 100, error := some "boom",
           created_at := 0, completed_at := some 2 }]
        1 none (some 7) none 9).2
      = some { id := 1, type := "video_render",
               payload := { resolved_content_ids := [], template_type := "video" },
               status := "failed", progress := 7, error := some "boom",
               created_at := 0, completed_at := some 2 }) := by
  have h := update_batch_job_status_no_terminal_guard
    [{ id := 1, type := "video_render",
       payload := { resolved_content_ids := [], template_type := "video" },
       status := "failed", progress := 100, error := some "boom",
       created_at := 0, completed_at := some 2 }]
    1
    { id := 1, type := "video_render",
      payload := { resolved_content_ids := [], template_type := "video" },
      status := "failed", progress := 100, error := some "boom",
      created_at := 0, completed_at := some 2 }
    (by decide)
  exact ⟨(h.1 "succeeded" (some 55) none 9 (by decide)).1, h.2 7 9⟩

/-! ## C3: the `completed_at` invariant -/

theorem applyJobUpdate_status (job : BatchJobRow) (st : Option String)
    (p : Option Nat) (e : Option String) (now : Nat) :
    (applyJobUpdate job st p e now).status = st.getD job.status := by
  cases st <;> cases p <;> cases e <;> simp [applyJobUpdate] <;> split <;> rfl

theorem applyJobUpdate_completed_at (job : BatchJobRow) (st : Option String)
    (p : Option Nat) (e : Option String) (now : Nat) :
    (applyJobUpdate job st p e now).completed_at
      = (match st with
         | some s => if isTerminalStatus s then some now else job.completed_at
         | none => job.completed_at) := by
  cases st <;> cases p <;> cases e <;>
    simp [applyJobUpdate, isTerminalStatus, Bool.or_eq_true, decide_eq_true_eq] <;>
    split <;> rfl

/-- C3 counterexample.  The claim quantifies over every state reachable
through the two job-store operations; the operations themselves allow a
terminal job to be updated back to "running" (C1), after which the stored
row has `completed_at` set while its status is not terminal.  The sequence
below is create(pending) → update(succeeded) → update(running). -/
theorem completed_at_iff_terminal_counterexample :
    getJobRow
      (update_batch_job_status
        (update_batch_job_status
          (create_batch_job []
            { type := "video_render",
              payload := { resolved_content_ids := [], template_type := "video" },
              status := "pending", progress := 0, error := none } 0).1
          1 (some "succeeded") (some 100) none 1).1
        1 (some "running") none none 2).1
      1
    = some { id := 1, type := "video_render",
             payload := { resolved_content_ids := [], template_type := "video" },
             status := "running", progress := 100, error := none,
             created_at := 0, completed_at := some 1 }
    ∧ isTerminalStatus "running" = false := by
  exact ⟨rfl, rfl⟩

/-- C3 amended: for every store reachable through `create_batch_job` and
`update_batch_job_status` under the legal state-machine discipline (jobs
created non-terminal, no non-terminal status written over a terminal one),
every stored job satisfies `completed_at ≠ none ↔ status ∈ {succeeded,
failed}`.  Without that discipline the code violates the invariant (see the
counterexample). -/
theorem completed_at_iff_terminal (db : JobStore) (hdb : ReachableStore db) :
    ∀ j ∈ db, (j.completed_at ≠ none ↔ isTerminalStatus j.status = true) := by
  induction hdb with
  | empty => intro j hj; simp at hj
  | create db input now hdb hstat ih =>
    intro j hj
    simp only [create_batch_job, List.mem_append, List.mem_singleton] at hj
    rcases hj with hj | hj
    · exact ih j hj
    · subst hj
      simp [hstat]
  | update db job_id st p e now hdb hcond ih =>
    intro j hj
    rcases hfind : getJobRow db job_id with _ | job
    · simp only [update_batch_job_status, hfind] at hj
      exact ih j hj
    · simp only [update_batch_job_status, hfind] at hj
      rcases List.mem_map.mp hj with ⟨r, hr, hjr⟩
      by_cases hid : (r.id == job_id) = true
      · rw [if_pos hid] at hjr
        subst hjr
        have hjobmem : job ∈ db := getJobRow_mem hfind
        rcases st with _ | s
        · -- no status argument: status and completed_at both unchanged
          rw [applyJobUpdate_completed_at, applyJobUpdate_status]
          exact ih job hjobmem
        · rcases ht : isTerminalStatus s with _ | _
          · -- non-terminal status: the discipline says the job was not
            -- terminal, so completed_at was and stays none
            have hjob := hcond s rfl ht job hfind
            have hcc := (ih job hjobmem).not_right.mpr (by simp [hjob])
            rw [applyJobUpdate_completed_at, applyJobUpdate_status]
            simp only [ht, if_false, Option.getD_some]
            simp only [not_not] at hcc
            simp [hcc, ht]
          · -- terminal status: completed_at is stamped
            rw [applyJobUpdate_completed_at, applyJobUpdate_status]
            simp [ht]
      · rw [if_neg hid] at hjr
        subst hjr
        exact ih r hr

/-- Witness for the amended C3 theorem: the disciplined sequence
create(pending) → update(running) → update(succeeded) yields a store whose
job satisfies the invariant. -/
theorem completed_at_iff_terminal_witness :
    (({ id := 1, type := "video_render",
        payload := { resolved_content_ids := [], template_type := "video" },
        status := "succeeded", progress := 100, error := none,
        created_at := 0, completed_at := some 2 } : BatchJobRow).completed_at ≠ none
      ↔ isTerminalStatus "succeeded" = true) := by
  have d0 : ReachableStore [] := ReachableStore.empty
  have d1 := ReachableStore.create []
    { type := "video_render",
      payload := { resolved_content_ids := [], template_type := "video" },
      status := "pending", progress := 0, error := none } 0 d0 (by decide)
  have d2 := ReachableStore.update _ 1 (some "running") (some 0) none 1 d1
    (by
      intro s hs _ job hjob
      cases hs
      injection hjob with h
      subst h
      decide)
  have d3 := ReachableStore.update _ 1 (some "succeeded") (some 100) none 2 d2
    (by
      intro s hs ht
      cases hs
      exact absurd ht (by decide))
  exact completed_at_iff_terminal _ d3 _ (by decide)

/-! ## C4 and C5: the render-status polling loop -/

theorem optTruthy_isSome {o : Option String} (h : optTruthy o = true) :
    o.isSome = true := by
  cases o <;> simp [optTruthy] at h ⊢

/-- Shifting the first-success window across one non-terminal observation. -/
theorem succ_window_shift (check : Nat → Option PollResp) (attempt fuel : Nat)
    (hns : ¬ succObs check attempt) (hna : ¬ abortObs check attempt) :
    (∃ i, attempt + 1 ≤ i ∧ i < (attempt + 1) + fuel ∧ succObs check i
        ∧ ∀ j, attempt + 1 ≤ j → j < i → ¬ abortObs check j)
    ↔ (∃ i, attempt ≤ i ∧ i < attempt + (fuel + 1) ∧ succObs check i
        ∧ ∀ j, attempt ≤ j → j < i → ¬ abortObs check j) := by
  constructor
  · rintro ⟨i, h1, h2, h3, h4⟩
    refine ⟨i, by omega, by omega, h3, fun j hj1 hj2 => ?_⟩
    rcases Nat.eq_or_lt_of_le hj1 with hj | hj
    · rw [← hj]; exact hna
    · exact h4 j hj hj2
  · rintro ⟨i, h1, h2, h3, h4⟩
    have hne : i ≠ attempt := fun h => hns (h ▸ h3)
    exact ⟨i, by omega, by omega, h3, fun j hj1 hj2 => h4 j (by omega) hj2⟩

/-- The polling loop returns a URL exactly when some performed status check
within the remaining attempts observes terminal success and no earlier
check in the window observed a render-reported failure. -/
theorem pollAux_isSome_iff (check : Nat → Option PollResp) :
    ∀ fuel attempt,
      ((pollAux check attempt fuel).1.isSome = true
        ↔ ∃ i, attempt ≤ i ∧ i < attempt + fuel ∧ succObs check i
            ∧ ∀ j, attempt ≤ j → j < i → ¬ abortObs check j) := by
  intro fuel
  induction fuel with
  | zero =>
    intro attempt
    simp only [pollAux, Option.isSome_none]
    constructor
    · intro h; exact absurd h (by simp)
    · rintro ⟨i, h1, h2, _, _⟩; omega
  | succ fuel ih =>
    intro attempt
    rcases hc : check attempt with _ | r
    · have hns : ¬ succObs check attempt := by
        rintro ⟨r, hr, _⟩; rw [hc] at hr; cases hr
      have hna : ¬ abortObs check attempt := by
        rintro ⟨r, hr, _⟩; rw [hc] at hr; cases hr
      calc (pollAux check attempt (fuel + 1)).1.isSome = true
          ↔ (pollAux check (attempt + 1) fuel).1.isSome = true := by
            rw [pollAux, hc]
        _ ↔ _ := (ih (attempt + 1)).trans (succ_window_shift check attempt fuel hns hna)
    · by_cases h1 : (r.status == "succeeded") = true ∧ optTruthy r.video_url = true
      · have hstep : pollAux check attempt (fuel + 1) = (r.video_url, attempt + 1) := by
          simp only [pollAux, hc]; simp [h1.1, h1.2]
        rw [hstep]
        simp only [optTruthy_isSome h1.2, true_iff]
        exact ⟨attempt, le_refl _, by omega,
          ⟨r, hc, by simpa using h1.1, h1.2⟩, fun j hj1 hj2 => by omega⟩
      · by_cases h2 : (r.status == "failed") = true ∨ (r.status == "error") = true
        · have hstep : pollAux check attempt (fuel + 1) = (none, attempt + 1) := by
            simp only [pollAux, hc]
            rw [if_neg h1, if_pos h2]
          rw [hstep]
          simp only [Option.isSome_none, Bool.false_eq_true, false_iff]
          rintro ⟨i, hi1, hi2, hsucc, hguard⟩
          have habort : abortObs check attempt := by
            refine ⟨r, hc, ?_⟩
            rcases h2 with h2 | h2
            · exact Or.inl (by simpa using h2)
            · exact Or.inr (by simpa using h2)
          rcases Nat.eq_or_lt_of_le hi1 with hj | hj
          · rcases hsucc with ⟨r', hr', hst', _⟩
            rw [← hj, hc] at hr'
            cases hr'
            rcases h2 with h2 | h2 <;> simp_all
          · exact hguard attempt (le_refl _) hj habort
        · have hns : ¬ succObs check attempt := by
            rintro ⟨r', hr', hst', hurl'⟩
            rw [hc] at hr'
            cases hr'
            exact h1 ⟨by simpa using hst', hurl'⟩
          have hna : ¬ abortObs check attempt := by
            rintro ⟨r', hr', hst'⟩
            rw [hc] at hr'
            cases hr'
            rcases hst' with hst' | hst'
            · exact h2 (Or.inl (by simpa using hst'))
            · exact h2 (Or.inr (by simpa using hst'))
          have hstep : pollAux check attempt (fuel + 1)
              = pollAux check (attempt + 1) fuel := by
            simp only [pollAux, hc]
            rw [if_neg h1, if_neg h2]
          rw [hstep]
          exact (ih (attempt + 1)).trans (succ_window_shift check attempt fuel hns hna)

/-- C4: the preview polling loop resolves to success exactly when one of its
status checks (within the 60 attempts) observes status "succeeded" together
with a truthy result URL and no earlier check observed a render failure;
the sequence pending, pending, succeeded+URL resolves to that URL after
exactly 3 status checks; and a "succeeded" response whose URL is absent or
empty never terminates the loop: the poll step behaves exactly as one more
still-pending attempt. -/
theorem render_poll_success_characterization (check : Nat → Option PollResp) :
    ((auto_render_poll check).1.isSome = true
      ↔ ∃ i, i < 60 ∧ succObs check i
          ∧ ∀ j, j < i → ¬ abortObs check j)
    ∧ auto_render_poll
        (fun i => if i = 2 then
            some { status := "succeeded", video_url := some "https://cdn.example/u.mp4" }
          else some { status := "pending", video_url := none })
        = (some "https://cdn.example/u.mp4", 3)
    ∧ (∀ attempt fuel r, check attempt = some r → r.status = "succeeded" →
        optTruthy r.video_url = false →
        pollAux check attempt (fuel + 1) = pollAux check (attempt + 1) fuel) := by
  refine ⟨?_, by decide, ?_⟩
  · rw [auto_render_poll, pollAux_isSome_iff check 60 0]
    constructor
    · rintro ⟨i, _, h2, h3, h4⟩
      exact ⟨i, by omega, h3, fun j hj => h4 j (Nat.zero_le j) hj⟩
    · rintro ⟨i, h1, h2, h3⟩
      exact ⟨i, Nat.zero_le i, by omega, h2, fun j _ hj => h3 j hj⟩
  · intro attempt fuel r hc hst hurl
    simp only [pollAux, hc]
    rw [if_neg (by simp [hurl]), if_neg (by simp [hst])]

/-- Witness for C4 at concrete inputs: a "succeeded" response with an empty
URL behaves as one more pending poll, and the pending-pending-succeeded
sequence returns its URL on the third check. -/
theorem render_poll_success_characterization_witness :
    (pollAux (fun _ => some { status := "succeeded", video_url := some "" }) 0 3
      = pollAux (fun _ => some { status := "succeeded", video_url := some "" }) 1 2)
    ∧ auto_render_poll
        (fun i => if i = 2 then
            some { status := "succeeded", video_url := some "https://cdn.example/u.mp4" }
          else some { status := "pending", video_url := none })
        = (some "https://cdn.example/u.mp4", 3) :=
  ⟨(render_poll_success_characterization
      (fun _ => some { status := "succeeded", video_url := some "" })).2.2
      0 2 { status := "succeeded", video_url := some "" } rfl rfl rfl,
   (render_poll_success_characterization (fun _ => none)).2.1⟩

/-- C5 counterexample.  A sequence that never reaches a terminal state
(60 "rendering" responses) makes the loop return None — exactly the same
value a render-reported failure produces — so the timeout outcome is not
distinguishable by the caller from a render failure. -/
theorem render_poll_timeout_counterexample :
    auto_render_poll (fun _ => some { status := "rendering", video_url := none })
      = (none, 60)
    ∧ auto_render_poll (fun _ => some { status := "failed", video_url := none })
      = (none, 1)
    ∧ (auto_render_poll (fun _ => some { status := "rendering", video_url := none })).1
      = (auto_render_poll (fun _ => some { status := "failed", video_url := none })).1 := by
  refine ⟨by decide, by decide, by decide⟩

/-- C5 amended: when no status check within the 60 attempts observes a
terminal state, the loop returns None after consuming all 60 attempts.
That timeout result is distinct from every success result (`some url`) but
coincides with the value returned for a render-reported failure (also
None), so the caller cannot distinguish the two from the return value. -/
theorem render_poll_timeout (check : Nat → Option PollResp)
    (h : ∀ i, i < 60 → nonTerminalObs check i) :
    auto_render_poll check = (none, 60)
    ∧ (∀ u : String, (auto_render_poll check).1 ≠ some u)
    ∧ (auto_render_poll (fun _ => some { status := "failed", video_url := none })).1
      = (auto_render_poll check).1 := by
  have main : ∀ fuel attempt, (∀ i, attempt ≤ i → i < attempt + fuel →
      nonTerminalObs check i) →
      pollAux check attempt fuel = (none, attempt + fuel) := by
    intro fuel
    induction fuel with
    | zero => intro attempt _; simp [pollAux]
    | succ fuel ih =>
      intro attempt hall
      have hthis := hall attempt (le_refl _) (by omega)
      rcases hc : check attempt with _ | r
      · simp only [pollAux, hc]
        have := ih (attempt + 1) (fun i hi1 hi2 => hall i (by omega) (by omega))
        rw [this]
        ring_nf
      · have hns : ¬ ((r.status == "succeeded") = true ∧ optTruthy r.video_url = true) := by
          intro hx
          exact hthis.1 ⟨r, hc, by simpa using hx.1, hx.2⟩
        have hna : ¬ ((r.status == "failed") = true ∨ (r.status == "error") = true) := by
          intro hx
          refine hthis.2 ⟨r, hc, ?_⟩
          rcases hx with hx | hx
          · exact Or.inl (by simpa using hx)
          · exact Or.inr (by simpa using hx)
        simp only [pollAux, hc]
        rw [if_neg hns, if_neg hna]
        have := ih (attempt + 1) (fun i hi1 hi2 => hall i (by omega) (by omega))
        rw [this]
        ring_nf
  have h60 : auto_render_poll check = (none, 60) := by
    rw [auto_render_poll]
    exact main 60 0 (fun i _ hi => h i (by omega))
  refine ⟨h60, ?_, ?_⟩
  · intro u
    rw [h60]
    simp
  · rw [h60]
    decide

/-- Witness for the amended C5 theorem: 60 "rendering" responses time out
with None after all 60 attempts. -/
theorem render_poll_timeout_witness :
    auto_render_poll (fun _ => some { status := "rendering", video_url := none })
      = (none, 60) :=
  (render_poll_timeout (fun _ => some { status := "rendering", video_url := none })
    (by
      intro i _
      constructor
      · rintro ⟨r, hr, hst, hurl⟩
        cases hr
        simp [optTruthy] at hurl
      · rintro ⟨r, hr, hst⟩
        cases hr
        rcases hst with hst | hst <;> simp_all)).1

/-! ## Render-loop lemmas -/

/-- One unfolding step of the worker loop. -/
theorem renderLoop_cons (bank : BankStore) (env : Nat → RenderEnv)
    (tt : String) (job_id total now a : Nat) (items : List Nat)
    (idx s f : Nat) (db : JobStore) :
    renderLoop bank env tt job_id total now (a :: items) idx s f db
      = renderLoop bank env tt job_id total now items (idx + 1)
          (if processOneItem bank env tt a then s + 1 else s)
          (if processOneItem bank env tt a then f else f + 1)
          ((update_batch_job_status db job_id none
            (some (pyProgressFloat (idx + 1) total)) none now).1) := rfl

theorem count_true_add_count_false (l : List Bool) :
    l.count true + l.count false = l.length := by
  induction l with
  | nil => rfl
  | cons b t ih => cases b <;> simp [List.count_cons] <;> omega

theorem renderLoop_counts (bank : BankStore) (env : Nat → RenderEnv)
    (tt : String) (job_id total now : Nat) :
    ∀ (items : List Nat) (idx s f : Nat) (db : JobStore),
      (renderLoop bank env tt job_id total now items idx s f db).1
          = s + (items.map (processOneItem bank env tt)).count true
      ∧ (renderLoop bank env tt job_id total now items idx s f db).2.1
          = f + (items.map (processOneItem bank env tt)).count false := by
  intro items
  induction items with
  | nil => intro idx s f db; simp [renderLoop]
  | cons a t ih =>
    intro idx s f db
    cases hok : processOneItem bank env tt a with
    | true =>
      have ihh := ih (idx + 1) (s + 1) f
        ((update_batch_job_status db job_id none (some (pyProgressFloat (idx + 1) total))
          none now).1)
      simp only [renderLoop, hok, if_true, List.map_cons, List.count_cons]
      exact ⟨by rw [ihh.1]; simp; omega, by rw [ihh.2]; simp⟩
    | false =>
      have ihh := ih (idx + 1) s (f + 1)
        ((update_batch_job_status db job_id none (some (pyProgressFloat (idx + 1) total))
          none now).1)
      simp only [renderLoop, hok, if_false, List.map_cons, List.count_cons]
      simp only [Bool.false_eq_true, if_false]
      exact ⟨by rw [ihh.1]; simp, by rw [ihh.2]; simp; omega⟩

theorem renderLoop_store (bank : BankStore) (env : Nat → RenderEnv)
    (tt : String) (job_id total now : Nat) :
    ∀ (items : List Nat) (idx s f : Nat) (db : JobStore) (job : BatchJobRow),
      getJobRow db job_id = some job → items ≠ [] →
      getJobRow (renderLoop bank env tt job_id total now items idx s f db).2.2
          job_id
        = some { job with progress := pyProgressFloat (idx + items.length) total } := by
  intro items
  induction items with
  | nil => intro idx s f db job _ hne; exact absurd rfl hne
  | cons a t ih =>
    intro idx s f db job hfind _
    have hstep := (update_stores_applied db job_id none
      (some (pyProgressFloat (idx + 1) total)) none now job hfind).2
    rw [applyJobUpdate_progress_only] at hstep
    rw [renderLoop_cons]
    rcases t with _ | ⟨b, t'⟩
    · simp only [renderLoop]
      simpa using hstep
    · rw [ih (idx + 1) _ _ _ _ hstep (by simp)]
      rw [show idx + 1 + (b :: t').length = idx + (a :: b :: t').length from by
        simp; omega]

theorem applyJobUpdate_running (job : BatchJobRow) (p now : Nat) :
    applyJobUpdate job (some "running") (some p) none now
      = { job with status := "running", progress := p } := rfl

theorem applyJobUpdate_failed_err (job : BatchJobRow) (p now : Nat) (m : String) :
    applyJobUpdate job (some "failed") (some p) (some m) now
      = { job with status := "failed", progress := p, error := some m,
                   completed_at := some now } := rfl

theorem applyJobUpdate_succeeded_err (job : BatchJobRow) (p now : Nat) (m : String) :
    applyJobUpdate job (some "succeeded") (some p) (some m) now
      = { job with status := "succeeded", progress := p, error := some m,
                   completed_at := some now } := rfl

theorem applyJobUpdate_succeeded_noerr (job : BatchJobRow) (p now : Nat) :
    applyJobUpdate job (some "succeeded") (some p) none now
      = { job with status := "succeeded", progress := p,
                   completed_at := some now } := rfl

theorem getJobRow_after_update {db : JobStore} {job_id : Nat}
    {job : BatchJobRow} (st : Option String) (p : Option Nat)
    (e : Option String) (now : Nat) (h : getJobRow db job_id = some job) :
    getJobRow (update_batch_job_status db job_id st p e now).1 job_id
      = some (applyJobUpdate job st p e now) :=
  (update_stores_applied db job_id st p e now job h).2

/-- C2: a pending `video_render` job over a non-empty item list, run by
`process_batch_render_job`, terminates with: status "failed" and error
"All N renders failed" when zero items succeed; status "succeeded" and
error "(N-k) of N renders failed" when 1 ≤ k < N items succeed; status
"succeeded" with a null error when all N items succeed.  In every case the
stored progress is 100 and `completed_at` is stamped. -/
theorem batch_render_outcome_semantics
    (jobs : JobStore) (bank : BankStore) (env : Nat → RenderEnv)
    (job_id now : Nat) (job : BatchJobRow) (N k : Nat)
    (hfind : getJobRow jobs job_id = some job)
    (htype : job.type = "video_render")
    (hstat : job.status = "pending")
    (herr : job.error = none)
    (hne : job.payload.resolved_content_ids ≠ [])
    (hN : N = job.payload.resolved_content_ids.length)
    (hk : k = (job.payload.resolved_content_ids.map
      (processOneItem bank env job.payload.template_type)).count true) :
    (k = 0 →
      getJobRow (process_batch_render_job jobs bank env job_id now).1 job_id
        = some { job with status := "failed", progress := 100,
                          error := some ("All " ++ toString N ++ " renders failed"),
                          completed_at := some now })
    ∧ (0 < k → k < N →
      getJobRow (process_batch_render_job jobs bank env job_id now).1 job_id
        = some { job with status := "succeeded", progress := 100,
                          error := some (toString (N - k) ++ " of " ++ toString N
                            ++ " renders failed"),
                          completed_at := some now })
    ∧ (k = N →
      getJobRow (process_batch_render_job jobs bank env job_id now).1 job_id
        = some { job with status := "succeeded", progress := 100,
                          error := none, completed_at := some now }) := by
  subst hN
  subst hk
  have hN0 : ¬ (job.payload.resolved_content_ids.length = 0) := by
    intro h
    exact hne (List.eq_nil_of_length_eq_zero h)
  have hdb1 : getJobRow (update_batch_job_status jobs job_id (some "running")
      (some 0) none now).1 job_id
      = some { job with status := "running", progress := 0 } := by
    rw [getJobRow_after_update _ _ _ _ hfind, applyJobUpdate_running]
  have hcounts := renderLoop_counts bank env job.payload.template_type job_id
    job.payload.resolved_content_ids.length now
    job.payload.resolved_content_ids 0 0 0
    (update_batch_job_status jobs job_id (some "running") (some 0) none now).1
  have hstore := renderLoop_store bank env job.payload.template_type job_id
    job.payload.resolved_content_ids.length now
    job.payload.resolved_content_ids 0 0 0
    (update_batch_job_status jobs job_id (some "running") (some 0) none now).1
    { job with status := "running", progress := 0 } hdb1 hne
  have hsum := count_true_add_count_false
    (job.payload.resolved_content_ids.map
      (processOneItem bank env job.payload.template_type))
  rw [List.length_map] at hsum
  simp only [process_batch_render_job, hfind]
  rw [if_neg (by simp [htype]), if_neg (by simp [hstat]), if_neg hne]
  rw [hcounts.1, hcounts.2]
  simp only [Nat.zero_add]
  refine ⟨?_, ?_, ?_⟩
  · intro hk0
    have hcf : (job.payload.resolved_content_ids.map
        (processOneItem bank env job.payload.template_type)).count false
        = job.payload.resolved_content_ids.length := by omega
    rw [hk0, hcf]
    simp only [batchOutcome]
    rw [if_neg hN0]
    rw [getJobRow_after_update _ _ _ _ hstore]
    rfl
  · intro hkpos hklt
    have hcf : (job.payload.resolved_content_ids.map
        (processOneItem bank env job.payload.template_type)).count false
        = job.payload.resolved_content_ids.length
          - (job.payload.resolved_content_ids.map
              (processOneItem bank env job.payload.template_type)).count true := by
      omega
    rw [hcf]
    simp only [batchOutcome]
    rw [if_neg (by omega), if_neg (by omega)]
    rw [getJobRow_after_update _ _ _ _ hstore]
    rfl
  · intro hkN
    have hcf : (job.payload.resolved_content_ids.map
        (processOneItem bank env job.payload.template_type)).count false = 0 := by
      omega
    rw [hcf]
    simp only [batchOutcome, if_true]
    rw [getJobRow_after_update _ _ _ _ hstore]
    simp [applyJobUpdate, herr]

/-- Witness for C2: a two-item batch where item 1 renders and item 2 is
missing from the bank resolves to "succeeded" with error "1 of 2 renders
failed". -/
theorem batch_render_outcome_semantics_witness :
    getJobRow (process_batch_render_job
        [{ id := 1, type := "video_render",
           payload := { resolved_content_ids := [1, 2], template_type := "video" },
           status := "pending", progress := 0, error := none,
           created_at := 0, completed_at := none }]
        [{ id := 1, status := "approved", title := "t", script := "s",
           content_pillar := "education", topic_cluster := none,
           created_at := 0, primary_asset_url := none,
           secondary_asset_url := none }]
        (fun _ => { voiceover := some "v", searchResults := ["https://a"],
                    renderStatus := "succeeded", renderUrl := some "https://r",
                    renderErrorMessage := none })
        1 5).1 1
      = some { id := 1, type := "video_render",
               payload := { resolved_content_ids := [1, 2], template_type := "video" },
               status := "succeeded", progress := 100,
               error := some (toString (2 - 1) ++ " of " ++ toString 2
                 ++ " renders failed"),
               created_at := 0, completed_at := some 5 } :=
  (batch_render_outcome_semantics
    [{ id := 1, type := "video_render",
       payload := { resolved_content_ids := [1, 2], template_type := "video" },
       status := "pending", progress := 0, error := none,
       created_at := 0, completed_at := none }]
    [{ id := 1, status := "approved", title := "t", script := "s",
       content_pillar := "education", topic_cluster := none,
       created_at := 0, primary_asset_url := none,
       secondary_asset_url := none }]
    (fun _ => { voiceover := some "v", searchResults := ["https://a"],
                renderStatus := "succeeded", renderUrl := some "https://r",
                renderErrorMessage := none })
    1 5
    { id := 1, type := "video_render",
      payload := { resolved_content_ids := [1, 2], template_type := "video" },
      status := "pending", progress := 0, error := none,
      created_at := 0, completed_at := none }
    2 1 rfl rfl rfl rfl (by decide) rfl (by decide)).2.1 (by decide) (by decide)

/-! ## C6: progress stored after each item -/

theorem calculate_text_similarity_self (t : String) (h : wordSet t ≠ ∅) :
    calculate_text_similarity t t = 1 := by
  simp only [calculate_text_similarity]
  rw [if_neg (by simp [h]), Finset.inter_self, Finset.union_self, if_neg h,
    div_self (by
      exact_mod_cast Finset.card_ne_zero.mpr (Finset.nonempty_iff_ne_empty.mpr h))]

theorem calculate_text_similarity_zero_of_disjoint (t1 t2 : String)
    (h : wordSet t1 ∩ wordSet t2 = ∅) :
    calculate_text_similarity t1 t2 = 0 := by
  simp only [calculate_text_similarity]
  by_cases h1 : wordSet t1 = ∅ ∨ wordSet t2 = ∅
  · rw [if_pos h1]
  · rw [if_neg h1]
    by_cases h2 : wordSet t1 ∪ wordSet t2 = ∅
    · rw [if_pos h2]
    · rw [if_neg h2, h, Finset.card_empty, Nat.cast_zero, zero_div]

/-- C7 counterexample.  With threshold exactly 1.0 the comparison is strict
(`similarity > threshold` in the source), so a pool item with an identical
title is not flagged: the claim's "for every threshold ≤ 1.0" fails at
threshold = 1.0. -/
theorem identical_title_threshold_one_counterexample :
    is_near_duplicate
      [{ id := 1, status := "draft", title := "hello", script := "",
         content_pillar := "p", topic_cluster := none, created_at := 100,
         primary_asset_url := none, secondary_asset_url := none }]
      "hello" "xyz" "p" none 1 30 100 = false
    ∧ ((1 : ℚ) ≤ 1) := by
  constructor
  · show (decide (calculate_text_similarity "hello" "hello" > 1)
      || decide (calculate_text_similarity (pyTake "xyz" 200) (pyTake "" 200) > 1)
      || false) = false
    rw [calculate_text_similarity_self "hello" (by decide),
      calculate_text_similarity_zero_of_disjoint (pyTake "xyz" 200)
        (pyTake "" 200) (by decide)]
    rw [decide_eq_false (by norm_num : ¬((1 : ℚ) > 1)),
      decide_eq_false (by norm_num : ¬((0 : ℚ) > 1))]
    rfl
  · norm_num

/-- C7 amended: against a pool containing a comparison item that passes the
query filters, an identical title whose word set is non-empty is flagged as
a near-duplicate for every threshold strictly below 1.0 (the source
comparison is strict, so threshold = 1.0 is not flagged — see the
counterexample); and when the new title shares no word with any stored
title and the 200-character script prefixes likewise share no word, the
filter reports false for every threshold ≥ 0. -/
theorem is_near_duplicate_characterization
    (db : BankStore) (new_title new_script : String) (pillar : String)
    (cluster : Option String) (thr : ℚ) (lookback now : Nat) :
    (∀ item ∈ db, item.content_pillar = pillar →
      now - lookback ≤ item.created_at →
      (cluster = none ∨ ∃ c, cluster = some c ∧ item.topic_cluster = some c) →
      item.title = new_title →
      wordSet new_title ≠ ∅ →
      thr < 1 →
      is_near_duplicate db new_title new_script pillar cluster thr lookback now
        = true)
    ∧ (0 ≤ thr →
      (∀ item ∈ db, wordSet new_title ∩ wordSet item.title = ∅
        ∧ wordSet (pyTake new_script 200) ∩ wordSet (pyTake item.script 200) = ∅) →
      is_near_duplicate db new_title new_script pillar cluster thr lookback now
        = false) := by
  constructor
  · intro item hmem hpillar hcut hclus htitle hws hthr
    simp only [is_near_duplicate]
    have h0 : item ∈ db.filter (fun it =>
        it.content_pillar == pillar && decide (now - lookback ≤ it.created_at)) := by
      refine List.mem_filter.mpr ⟨hmem, ?_⟩
      simp [hpillar, hcut]
    have hpred : (decide (calculate_text_similarity new_title item.title > thr)
        || decide (calculate_text_similarity (pyTake new_script 200)
             (pyTake item.script 200) > thr)) = true := by
      refine Bool.or_eq_true_iff.mpr (Or.inl ?_)
      rw [htitle, calculate_text_similarity_self _ hws]
      exact decide_eq_true hthr
    split
    · rename_i c0
      rcases hclus with hclus | ⟨c', hc', hic⟩
      · cases hclus
      · injection hc' with hcc
        subst hcc
        by_cases hc0 : (c0 == "") = true
        · rw [if_pos hc0]
          exact List.any_eq_true.mpr ⟨item, h0, hpred⟩
        · rw [if_neg hc0]
          exact List.any_eq_true.mpr
            ⟨item, List.mem_filter.mpr ⟨h0, by simp [hic]⟩, hpred⟩
    · exact List.any_eq_true.mpr ⟨item, h0, hpred⟩
  · intro hthr hdisj
    simp only [is_near_duplicate]
    have hp : ∀ x ∈ db,
        ¬ (decide (calculate_text_similarity new_title x.title > thr)
          || decide (calculate_text_similarity (pyTake new_script 200)
               (pyTake x.script 200) > thr)) = true := by
      intro x hx
      rcases hdisj x hx with ⟨h1, h2⟩
      rw [calculate_text_similarity_zero_of_disjoint _ _ h1,
        calculate_text_similarity_zero_of_disjoint _ _ h2]
      simp [decide_eq_false (not_lt.mpr hthr)]
    split
    · rename_i c0
      by_cases hc0 : (c0 == "") = true
      · rw [if_pos hc0]
        exact List.any_eq_false.mpr
          (fun x hx => hp x (List.mem_filter.mp hx).1)
      · rw [if_neg hc0]
        exact List.any_eq_false.mpr
          (fun x hx => hp x (List.mem_filter.mp (List.mem_filter.mp hx).1).1)
    · exact List.any_eq_false.mpr
        (fun x hx => hp x (List.mem_filter.mp hx).1)

/-- Witness for the amended C7 theorem: an identical title is flagged at
threshold 2/5 (the source default 0.4), and fully word-disjoint texts are
not flagged at the same threshold. -/
theorem is_near_duplicate_characterization_witness :
    is_near_duplicate
        [{ id := 1, status := "draft", title := "morning energy tips",
           script := "try this", content_pillar := "education",
           topic_cluster := none, created_at := 100,
           primary_asset_url := none, secondary_asset_url := none }]
        "morning energy tips" "something new" "education" none (2/5) 30 100
      = true
    ∧ is_near_duplicate
        [{ id := 1, status := "draft", title := "morning energy tips",
           script := "try this", content_pillar := "education",
           topic_cluster := none, created_at := 100,
           primary_asset_url := none, secondary_asset_url := none }]
        "evening calm routine" "different words here" "education" none (2/5) 30 100
      = false :=
  ⟨(is_near_duplicate_characterization
      [{ id := 1, status := "draft", title := "morning energy tips",
         script := "try this", content_pillar := "education",
         topic_cluster := none, created_at := 100,
         primary_asset_url := none, secondary_asset_url := none }]
      "morning energy tips" "something new" "education" none (2/5) 30 100).1
      { id := 1, status := "draft", title := "morning energy tips",
        script := "try this", content_pillar := "education",
        topic_cluster := none, created_at := 100,
        primary_asset_url := none, secondary_asset_url := none }
      (by decide) rfl (by decide) (Or.inl rfl) rfl (by decide) (by norm_num),
   (is_near_duplicate_characterization
      [{ id := 1, status := "draft", title := "morning energy tips",
         script := "try this", content_pillar := "education",
         topic_cluster := none, created_at := 100,
         primary_asset_url := none, secondary_asset_url := none }]
      "evening calm routine" "different words here" "education" none (2/5) 30 100).2
      (by norm_num)
      (by intro item hmem; constructor <;>
            (rcases List.mem_singleton.mp hmem with rfl; decide))⟩

/-! ## C8: the stock-video people filter -/

theorem searchVideosLoop_sound (max_results : Nat) :
    ∀ (videos : List PexelsVideo) (acc : List AssetResult) (a : AssetResult),
      a ∈ searchVideosLoop max_results videos acc →
      a ∈ acc ∨ ∃ v, v ∈ videos ∧ hasPeopleKeyword v = false
        ∧ v.video_files ≠ [] ∧ a = buildAsset v := by
  intro videos
  induction videos with
  | nil =>
    intro acc a ha
    exact Or.inl (by simpa [searchVideosLoop] using ha)
  | cons v rest ih =>
    intro acc a ha
    by_cases hpk : hasPeopleKeyword v = true
    · simp only [searchVideosLoop, hpk, if_true] at ha
      rcases ih acc a ha with h | ⟨v', hv', h1, h2, h3⟩
      · exact Or.inl h
      · exact Or.inr ⟨v', List.mem_cons_of_mem _ hv', h1, h2, h3⟩
    · have hpk' : hasPeopleKeyword v = false := by simpa using hpk
      simp only [searchVideosLoop, hpk', Bool.false_eq_true, if_false] at ha
      split at ha
      · rcases ih acc a ha with h | ⟨v', hv', h1, h2, h3⟩
        · exact Or.inl h
        · exact Or.inr ⟨v', List.mem_cons_of_mem _ hv', h1, h2, h3⟩
      · rename_i f fs heq
        have hvne : v.video_files ≠ [] := by rw [heq]; simp
        split at ha
        · rcases List.mem_append.mp ha with h | h
          · exact Or.inl h
          · exact Or.inr ⟨v, List.mem_cons_self _ _, hpk', hvne, by simpa using h⟩
        · rcases ih _ a ha with h | ⟨v', hv', h1, h2, h3⟩
          · rcases List.mem_append.mp h with h | h
            · exact Or.inl h
            · exact Or.inr ⟨v, List.mem_cons_self _ _, hpk', hvne, by simpa using h⟩
          · exact Or.inr ⟨v', List.mem_cons_of_mem _ hv', h1, h2, h3⟩

/-- C8: every asset returned by `search_videos` originates from a candidate
of the response whose metadata text contains no deny-listed term (the
candidate filter runs per candidate, not only on the query); any candidate
whose metadata text contains a deny-listed keyword is flagged by
`hasPeopleKeyword` and therefore contributes nothing to the result; and the
deny list contains the claim's example terms "woman" and "face". -/
theorem search_videos_excludes_people
    (videos : List PexelsVideo) (max_results : Nat) (a : AssetResult)
    (ha : a ∈ search_videos videos max_results) :
    (∃ v, v ∈ videos ∧ hasPeopleKeyword v = false ∧ v.video_files ≠ []
      ∧ a = buildAsset v)
    ∧ (∀ (v : PexelsVideo), ∀ kw ∈ people_keywords,
        containsSub (videoText v) kw.data = true → hasPeopleKeyword v = true)
    ∧ "woman" ∈ people_keywords ∧ "face" ∈ people_keywords := by
  refine ⟨?_, ?_, by decide, by decide⟩
  · rcases searchVideosLoop_sound max_results videos [] a ha with h | h
    · simp at h
    · exact h
  · intro v kw hkw hsub
    exact List.any_eq_true.mpr ⟨kw, hkw, hsub⟩

/-- Witness for C8: a response with a "woman"-tagged candidate and a clean
ocean candidate returns only the asset built from the clean candidate. -/
theorem search_videos_excludes_people_witness :
    (∃ v, v ∈
        [{ url := "https://pexels.com/video/woman-yoga-2", id := 2,
           alt := some "woman doing yoga", video_files := [{ width := 1920, link := "https://cdn/v2.mp4" }], image := "https://img/2.jpg",
           duration := 12 },
         { url := "https://pexels.com/video/ocean-5", id := 5,
           alt := some "calm ocean waves", video_files := [{ width := 1280, link := "https://cdn/v5.mp4" }], image := "",
           duration := 9 }]
      ∧ hasPeopleKeyword v = false ∧ v.video_files ≠ []
      ∧ buildAsset { url := "https://pexels.com/video/ocean-5", id := 5,
                     alt := some "calm ocean waves",
                     video_files := [{ width := 1280, link := "https://cdn/v5.mp4" }],
                     image := "", duration := 9 } = buildAsset v)
    ∧ (∀ (v : PexelsVideo), ∀ kw ∈ people_keywords,
        containsSub (videoText v) kw.data = true → hasPeopleKeyword v = true)
    ∧ "woman" ∈ people_keywords ∧ "face" ∈ people_keywords :=
  search_videos_excludes_people
    [{ url := "https://pexels.com/video/woman-yoga-2", id := 2,
       alt := some "woman doing yoga", video_files := [{ width := 1920, link := "https://cdn/v2.mp4" }], image := "https://img/2.jpg",
       duration := 12 },
     { url := "https://pexels.com/video/ocean-5", id := 5,
       alt := some "calm ocean waves", video_files := [{ width := 1280, link := "https://cdn/v5.mp4" }], image := "",
       duration := 9 }]
    10
    (buildAsset { url := "https://pexels.com/video/ocean-5", id := 5,
                  alt := some "calm ocean waves",
                  video_files := [{ width := 1280, link := "https://cdn/v5.mp4" }],
                  image := "", duration := 9 })
    (by decide)

/-! ## C9: audio picker fallbacks -/

theorem get_mod_mem {α : Type} (l : List α) (seed : Nat) (h : l ≠ []) :
    ∃ t ∈ l, l.get? (seed % l.length) = some t := by
  have hlen : 0 < l.length := List.length_pos.mpr h
  have hmod : seed % l.length < l.length := Nat.mod_lt _ hlen
  exact ⟨l.get ⟨_, hmod⟩, List.get_mem _ _ _, List.get?_eq_get hmod⟩

/-- C9: the audio picker never errors on mood mismatch or empty storage:
muted mode returns None for every track table without consulting it; an
empty track table returns None; and a requested mood matching no stored
track falls back to the whole table and returns one of its tracks. -/
theorem pick_track_fallback_semantics :
    (∀ (music_mood : Option String) (est seed : Nat)
        (tracks : List AudioTrackRow),
      pick_track_for_plan AudioMode.MUTED_FOR_PLATFORM_MUSIC music_mood est
        tracks seed = none)
    ∧ (∀ (mode : AudioMode) (music_mood : Option String) (est seed : Nat),
        pick_track_for_plan mode music_mood est [] seed = none)
    ∧ (∀ (mode : AudioMode) (music_mood : Option String) (est seed : Nat)
        (tracks : List AudioTrackRow),
        mode ≠ AudioMode.MUTED_FOR_PLATFORM_MUSIC →
        tracks ≠ [] →
        (∀ t ∈ tracks, ¬ (t.mood == normalizeMood music_mood) = true) →
        ∃ t ∈ tracks,
          pick_track_for_plan mode music_mood est tracks seed = some t) := by
  refine ⟨?_, ?_, ?_⟩
  · intro music_mood est seed tracks
    simp [pick_track_for_plan]
  · intro mode music_mood est seed
    by_cases hmode : mode = AudioMode.MUTED_FOR_PLATFORM_MUSIC
    · simp [pick_track_for_plan, hmode]
    · simp only [pick_track_for_plan]
      rw [if_neg hmode]
      simp
  · intro mode music_mood est seed tracks hmode hne hnomatch
    simp only [pick_track_for_plan]
    rw [if_neg hmode]
    by_cases hnm : normalizeMood music_mood = ""
    · rw [hnm]
      rw [if_neg (show ¬(("" : String) ≠ "") by simp)]
      rw [if_neg (show ¬(tracks = [] ∧ ("" : String) ≠ "") by simp)]
      rw [if_neg hne]
      by_cases hS : tracks.filter
          (fun t => decide (est ≤ t.length_seconds)) = []
      · rw [if_pos hS]
        exact get_mod_mem tracks seed hne
      · rw [if_neg hS]
        rcases get_mod_mem _ seed hS with ⟨t, ht, heq⟩
        exact ⟨t, (List.mem_filter.mp ht).1, heq⟩
    · have hq : tracks.filter
          (fun t => t.mood == normalizeMood music_mood) = [] :=
        List.filter_eq_nil_iff.mpr hnomatch
      rw [if_pos (show normalizeMood music_mood ≠ "" from hnm), hq]
      rw [if_pos (show ([] : List AudioTrackRow) = []
        ∧ normalizeMood music_mood ≠ "" from ⟨rfl, hnm⟩)]
      rw [if_neg hne]
      by_cases hS : tracks.filter
          (fun t => decide (est ≤ t.length_seconds)) = []
      · rw [if_pos hS]
        exact get_mod_mem tracks seed hne
      · rw [if_neg hS]
        rcases get_mod_mem _ seed hS with ⟨t, ht, heq⟩
        exact ⟨t, (List.mem_filter.mp ht).1, heq⟩

/-- Witness for C9: a single "energetic" track, requested with mood "calm"
under a non-muted mode, is returned; muted mode and an empty table return
None. -/
theorem pick_track_fallback_semantics_witness :
    pick_track_for_plan AudioMode.MUTED_FOR_PLATFORM_MUSIC (some "calm") 10
      [{ title := "T", mood := "energetic", length_seconds := 30, file_url := "u" }] 0 = none
    ∧ pick_track_for_plan AudioMode.AUTO_STOCK_ONLY (some "calm") 10 [] 0 = none
    ∧ (∃ t ∈ ([{ title := "T", mood := "energetic", length_seconds := 30, file_url := "u" }] : List AudioTrackRow),
        pick_track_for_plan AudioMode.AUTO_STOCK_ONLY (some "calm") 10
          [{ title := "T", mood := "energetic", length_seconds := 30, file_url := "u" }] 0 = some t) :=
  ⟨pick_track_fallback_semantics.1 (some "calm") 10 0 _,
   pick_track_fallback_semantics.2.1 AudioMode.AUTO_STOCK_ONLY (some "calm") 10 0,
   pick_track_fallback_semantics.2.2 AudioMode.AUTO_STOCK_ONLY (some "calm") 10 0
     [{ title := "T", mood := "energetic", length_seconds := 30, file_url := "u" }]
     (by decide) (by decide)
     (by
       intro t ht
       rcases List.mem_singleton.mp ht with rfl
       decide)⟩

end DadAgent
